import Mathlib

/-!
Verification of the SyFM segment-consolidation and dataset-export subsystem.

This file is a shallow embedding, in Lean, of the pure computational core of
the repository:

* `src/transcription/transcription.py` — `TranscriptionSegment`,
  `TranscriptionSegment.merge`, `TranscriptionOutput` and its JSON
  serialization (`to_json` / `from_json`);
* `src/transcription/output_saver.py` — `CroquisOutputSaver`: the
  silence-threshold consolidation strategy (`_threshold_strategy`), the crop
  naming template (`CROP_TEMPLATE`), the padding/clamping arithmetic of
  `_save_audio_crops`, and the dataset-directory preparation step of `save`;
* `src/transcription/engine.py` — the fixed output of
  `GreetingsEngine.transcribe`.

Python exceptions are modelled with `Except` over an error type recording the
exception class (and message).  Millisecond times are Python ints, modelled as
`Int` (the `end_ms = -1` sentinel makes negative values reachable).  Paths are
modelled by their canonical string, so `str` and `Path` conversions are the
identity.  File contents and directory listings are modelled as explicit
values; JSON text is modelled by a JSON value tree.
-/

namespace SyFM

/-- Python exceptions raised by the embedded code, identified by exception
class (and message or key where the code supplies one). -/
inductive PyError where
  | valueError (msg : String)
  | keyError (key : String)
  | typeError (msg : String)
  | isADirectoryError
deriving Repr, DecidableEq

/-- Embeds `TranscriptionSegment` (transcription.py, lines 8–13): a named
tuple `(start_ms, end_ms, text)`. -/
structure TranscriptionSegment where
  start_ms : Int
  end_ms : Int
  text : String
deriving Repr, DecidableEq

namespace TranscriptionSegment

/-- Embeds `TranscriptionSegment.merge` (transcription.py, lines 15–38):
raises `ValueError` on an empty list; otherwise takes `segments[0].start_ms`,
`segments[-1].end_ms`, and accumulates `merged_text += ' ' + segment.text`
starting from the empty string. -/
def merge : List TranscriptionSegment → Except PyError TranscriptionSegment
  | [] => .error (.valueError "Cannot merge zero segments")
  | s :: rest =>
    .ok { start_ms := s.start_ms
        , end_ms := ((s :: rest).getLast (List.cons_ne_nil s rest)).end_ms
        , text := (s :: rest).foldl (fun acc seg => acc ++ " " ++ seg.text) "" }

end TranscriptionSegment

/-- The segments of a `TranscriptionOutput` are sorted by non-decreasing
`start_ms` (a source guarantee stated by the spec, not enforced by the code). -/
def sortedByStart : List TranscriptionSegment → Prop
  | [] => True
  | [_] => True
  | a :: b :: rest => a.start_ms ≤ b.start_ms ∧ sortedByStart (b :: rest)

instance instDecSortedByStart :
    (segs : List TranscriptionSegment) → Decidable (sortedByStart segs)
  | [] => .isTrue trivial
  | [_] => .isTrue trivial
  | a :: b :: rest =>
    have _hrec := instDecSortedByStart (b :: rest)
    inferInstanceAs (Decidable (a.start_ms ≤ b.start_ms ∧ sortedByStart (b :: rest)))

instance {ε α : Type} [DecidableEq ε] [DecidableEq α] :
    DecidableEq (Except ε α) := fun a b =>
  match a, b with
  | .ok x, .ok y =>
    if h : x = y then isTrue (by rw [h]) else isFalse (by simp [h])
  | .error x, .error y =>
    if h : x = y then isTrue (by rw [h]) else isFalse (by simp [h])
  | .ok _, .error _ => isFalse (by simp)
  | .error _, .ok _ => isFalse (by simp)

/-- Text produced by joining a list of texts where every join contributes one
leading space (the contract of §4.1 of the spec, stated from the spec's
words for comparison with the source's `merge`). -/
def joinLeadingSpace : List String → String
  | [] => ""
  | t :: ts => (" " ++ t) ++ joinLeadingSpace ts

/-- Embeds `TranscriptionOutput` (transcription.py, lines 41–46).
`audio_path` is a path modelled by its canonical string. -/
structure TranscriptionOutput where
  audio_path : String
  engine : String
  language : String
  transcription : List TranscriptionSegment
deriving Repr, DecidableEq

/-- JSON values, modelling the text produced by `json.dumps` and parsed by
`json.load`.  Objects are key/value lists in insertion order. -/
inductive Json where
  | num (n : Int)
  | str (s : String)
  | arr (xs : List Json)
  | obj (kvs : List (String × Json))
deriving Repr

/-- Dictionary access `data[k]` on a parsed JSON object. -/
def jsonLookup (kvs : List (String × Json)) (k : String) : Option Json :=
  match kvs with
  | [] => none
  | (k', v) :: rest => if k' = k then some v else jsonLookup rest k

namespace TranscriptionSegment

/-- Embeds `segment._asdict()` as used by `TranscriptionOutput.to_dict`
(transcription.py, lines 48–53): the field dictionary of one segment. -/
def toJsonObj (s : TranscriptionSegment) : Json :=
  .obj [("start_ms", .num s.start_ms), ("end_ms", .num s.end_ms),
        ("text", .str s.text)]

/-- Embeds `TranscriptionSegment(**segment)` (transcription.py, line 66):
constructing a segment from a parsed JSON object requires exactly the keys
`start_ms`, `end_ms`, `text` (Python raises `TypeError` for a missing or
unexpected keyword argument); field values are required to be well-typed,
which the embedding checks where Python's untyped named tuple would not. -/
def fromJsonObj : Json → Except PyError TranscriptionSegment
  | .obj kvs =>
    match jsonLookup kvs "start_ms", jsonLookup kvs "end_ms",
          jsonLookup kvs "text" with
    | some (.num s), some (.num e), some (.str t) =>
      if kvs.all (fun kv =>
          kv.1 == "start_ms" || kv.1 == "end_ms" || kv.1 == "text") then
        .ok { start_ms := s, end_ms := e, text := t }
      else
        .error (.typeError "unexpected keyword argument")
    | _, _, _ => .error (.typeError "missing or ill-typed segment field")
  | _ => .error (.typeError "segment record is not a mapping")

/-- Embeds the list comprehension of transcription.py, lines 65–67: parse
each element in order with `TranscriptionSegment(**segment)`, surfacing the
first failure. -/
def parseSegments : List Json → Except PyError (List TranscriptionSegment)
  | [] => .ok []
  | x :: xs =>
    match fromJsonObj x with
    | .error e => .error e
    | .ok s =>
      match parseSegments xs with
      | .error e => .error e
      | .ok rest => .ok (s :: rest)

end TranscriptionSegment

namespace TranscriptionOutput

/-- Embeds `TranscriptionOutput.to_json` composed with `to_dict`
(transcription.py, lines 48–58): the four fields in declaration order, with
`audio_path` stringified and each segment rendered by `_asdict`. -/
def to_json (t : TranscriptionOutput) : Json :=
  .obj [("audio_path", .str t.audio_path), ("engine", .str t.engine),
        ("language", .str t.language),
        ("transcription", .arr (t.transcription.map TranscriptionSegment.toJsonObj))]

/-- Embeds `TranscriptionOutput.from_json` (transcription.py, lines 60–76),
applied to the parsed JSON value (the file read is abstracted away).  The
steps, in source order: `data['audio_path']` (a `KeyError` when absent, then
`Path(...)`), `data['transcription']` (a `KeyError` when absent, then one
`TranscriptionSegment(**segment)` per element), then the validation loop over
the dataclass fields in declaration order raising
`ValueError('Key ... is missing from the transcription output')`, and finally
`TranscriptionOutput(**data)`, which raises `TypeError` on any extra key. -/
def from_json : Json → Except PyError TranscriptionOutput
  | .obj kvs =>
    match jsonLookup kvs "audio_path" with
    | none => .error (.keyError "audio_path")
    | some apJson =>
      match apJson with
      | .str ap =>
        match jsonLookup kvs "transcription" with
        | none => .error (.keyError "transcription")
        | some trJson =>
          match trJson with
          | .arr xs =>
            match TranscriptionSegment.parseSegments xs with
            | .error e => .error e
            | .ok segs =>
              if (jsonLookup kvs "engine").isNone then
                .error (.valueError
                  "Key engine is missing from the transcription output")
              else if (jsonLookup kvs "language").isNone then
                .error (.valueError
                  "Key language is missing from the transcription output")
              else if kvs.all (fun kv =>
                  kv.1 == "audio_path" || kv.1 == "engine" ||
                  kv.1 == "language" || kv.1 == "transcription") then
                match jsonLookup kvs "engine", jsonLookup kvs "language" with
                | some (.str eng), some (.str lang) =>
                  .ok { audio_path := ap, engine := eng, language := lang,
                        transcription := segs }
                | _, _ => .error (.typeError "ill-typed metadata field")
              else
                .error (.typeError "unexpected keyword argument")
          | _ => .error (.typeError "transcription is not a list")
      | _ => .error (.typeError "audio_path is not a string")
  | _ => .error (.typeError "record is not a mapping")

end TranscriptionOutput

namespace CroquisOutputSaver

/-- Zero-padding of `'{crop_id:05d}'`: decimal digits, left-padded with zeros
to a minimum width of five. -/
def pad5 (n : Nat) : String :=
  let s := toString n
  String.mk (List.replicate (5 - s.length) '0') ++ s

/-- Embeds `CROP_TEMPLATE = '{audio_source}_{crop_id:05d}'`
(output_saver.py, line 95). -/
def CROP_TEMPLATE (audio_source : String) (crop_id : Nat) : String :=
  audio_source ++ "_" ++ pad5 crop_id

/-- Embeds `PAD_MS = 200` (output_saver.py, line 89). -/
def PAD_MS : Int := 200

/-- Embeds `SILENCE_THRESHOLD_MS = 500` (output_saver.py, line 92). -/
def SILENCE_THRESHOLD_MS : Int := 500

/-- One iteration of the loop of `_threshold_strategy` (output_saver.py,
lines 172–189) over the state `(crops, idx, current_guesses)`: an empty
current guess is started with the segment; otherwise the silence duration
`segment.start_ms - current_guesses[-1].end_ms` is compared with the
threshold, appending within it and otherwise closing the current guess as
the next crop and restarting from the segment. -/
def thresholdBody (threshold : Int) (audio_source : String)
    (st : List (String × TranscriptionSegment) × Nat × List TranscriptionSegment)
    (segment : TranscriptionSegment) :
    Except PyError
      (List (String × TranscriptionSegment) × Nat × List TranscriptionSegment) :=
  let (crops, idx, current_guesses) := st
  match current_guesses with
  | [] => .ok (crops, idx, [segment])
  | g :: gs =>
    let silence_duration :=
      segment.start_ms - ((g :: gs).getLast (List.cons_ne_nil g gs)).end_ms
    if silence_duration ≤ threshold then
      .ok (crops, idx, current_guesses ++ [segment])
    else
      match TranscriptionSegment.merge current_guesses with
      | .error e => .error e
      | .ok merged_segment =>
        .ok (crops ++ [(CROP_TEMPLATE audio_source idx, merged_segment)],
             idx + 1, [segment])

/-- Embeds `_threshold_strategy` (output_saver.py, lines 160–194), with the
silence threshold as a parameter (`self.SILENCE_THRESHOLD_MS`, a class
constant 500) and the audio-source stem as a string.  The crops dictionary is
an association list in insertion order; after the loop the last guess is
merged unconditionally. -/
def threshold_strategy (threshold : Int) (audio_source : String)
    (transcription : List TranscriptionSegment) :
    Except PyError (List (String × TranscriptionSegment)) := do
  let (crops, idx, current_guesses) ←
    transcription.foldlM (thresholdBody threshold audio_source) ([], 0, [])
  let merged_segment ← TranscriptionSegment.merge current_guesses
  return crops ++ [(CROP_TEMPLATE audio_source idx, merged_segment)]

/-- Embeds the padding and clamping arithmetic of `_save_audio_crops`
(output_saver.py, lines 214–215): the exported range of one crop, over the
total audio duration `len(audio)` in milliseconds. -/
def cropClipRange (pad_ms : Int) (audio_len : Int)
    (segment : TranscriptionSegment) : Int × Int :=
  (max 0 (segment.start_ms - pad_ms), min (segment.end_ms + pad_ms) audio_len)

/-- Embeds the export loop of `_save_audio_crops` (output_saver.py,
lines 212–218): one `(file name, clip range)` pair per crop, in mapping
order, the file named by the crop id plus the source extension. -/
def save_audio_crops (pad_ms : Int) (audio_len : Int) (extension : String)
    (audios_crops : List (String × TranscriptionSegment)) :
    List (String × (Int × Int)) :=
  audios_crops.map (fun p => (p.1 ++ extension, cropClipRange pad_ms audio_len p.2))

/-- Embeds `CroquisOutputSaver.Mode` (output_saver.py, lines 68–72). -/
inductive Mode where
  | WRITE
  | APPEND
deriving Repr, DecidableEq

/-- One directory entry of the dataset directory, as seen by
`dataset_dir.iterdir()`: a regular file or a subdirectory. -/
inductive FsEntry where
  | file (nm : String)
  | dir (nm : String)
deriving Repr, DecidableEq

/-- A directory entry that is a regular file. -/
def FsEntry.isFile : FsEntry → Bool
  | .file _ => true
  | .dir _ => false

/-- Embeds the deletion loop `for f in dataset_dir.iterdir(): f.unlink()`
(output_saver.py, lines 249–250): `Path.unlink` removes a regular file and
raises `IsADirectoryError` on a directory entry. -/
def unlink_all : List FsEntry → Except PyError Unit
  | [] => .ok ()
  | .file _ :: rest => unlink_all rest
  | .dir _ :: _ => .error .isADirectoryError

/-- Embeds the dataset-directory preparation step of `save` (output_saver.py,
lines 244–253) on the state of the dataset directory (`none` when the
directory does not exist, otherwise its entry list): under WRITE on an
existing directory every entry is unlinked, then
`mkdir(parents=True, exist_ok=True)` ensures the directory exists.  The
result is the entry list of the directory after the step. -/
def prepare_dataset_dir (mode : Mode) (existing : Option (List FsEntry)) :
    Except PyError (List FsEntry) :=
  match mode, existing with
  | .WRITE, some entries =>
    match unlink_all entries with
    | .error e => .error e
    | .ok _ => .ok []
  | .APPEND, some entries => .ok entries
  | _, none => .ok []

end CroquisOutputSaver

/-- Embeds the fixed transcription returned by `GreetingsEngine.transcribe`
(engine.py, lines 72–89): a single segment with the sentinel `end_ms = -1`. -/
def GreetingsEngine.transcription : List TranscriptionSegment :=
  [{ start_ms := 0, end_ms := -1, text := "Hello world!" }]

namespace CroquisOutputSaver

/-- Modelled from the spec: the silence-threshold grouping walk of §4.2, one
step.  The state is `(closed groups, current group)`; an empty current group
is started with the segment, otherwise the gap to the last group member
decides between appending (gap at most the threshold) and closing the group. -/
def specStep (threshold : Int)
    (st : List (List TranscriptionSegment) × List TranscriptionSegment)
    (seg : TranscriptionSegment) :
    List (List TranscriptionSegment) × List TranscriptionSegment :=
  match st with
  | (closed, []) => (closed, [seg])
  | (closed, g :: gs) =>
    if seg.start_ms - ((g :: gs).getLast (List.cons_ne_nil g gs)).end_ms ≤ threshold then
      (closed, (g :: gs) ++ [seg])
    else
      (closed ++ [g :: gs], [seg])

/-- Modelled from the spec: the grouping of §4.2 in full — walk the segments
in order with `specStep`, then always close and emit the final group. -/
def specSilenceGroups (threshold : Int) (segs : List TranscriptionSegment) :
    List (List TranscriptionSegment) :=
  let (closed, current) := segs.foldl (specStep threshold) ([], [])
  closed ++ [current]

/-- Modelled from the spec: consecutive crop sequence numbers, starting from
`i`, formatted with the crop template. -/
def numberCrops (audio_source : String) (i : Nat) :
    List TranscriptionSegment → List (String × TranscriptionSegment)
  | [] => []
  | m :: ms => (CROP_TEMPLATE audio_source i, m) :: numberCrops audio_source (i + 1) ms

/-- Modelled from the spec: merge every closed group via §4.1 (the source's
`merge`), in order, surfacing the first failure. -/
def mergeGroups :
    List (List TranscriptionSegment) → Except PyError (List TranscriptionSegment)
  | [] => .ok []
  | g :: gs =>
    match TranscriptionSegment.merge g with
    | .error e => .error e
    | .ok m =>
      match mergeGroups gs with
      | .error e => .error e
      | .ok ms => .ok (m :: ms)

/-- Embeds Python's `str.strip()`: drop leading and trailing whitespace. -/
def pyStrip (s : String) : String :=
  ⟨(((s.data.dropWhile Char.isWhitespace).reverse.dropWhile
      Char.isWhitespace).reverse)⟩

/-- Embeds the metadata loop of `_save_transcription` (output_saver.py,
lines 229–231): one line `'{crop_idx}|{segment.text.strip()}\n'` per crop, in
mapping order. -/
def metadata_lines (audios_crops : List (String × TranscriptionSegment)) :
    List String :=
  audios_crops.map (fun p => p.1 ++ "|" ++ pyStrip p.2.text ++ "\n")

end CroquisOutputSaver

open CroquisOutputSaver

/-- The text accumulation loop of `merge` prepends one space per segment:
folding from any accumulator appends the leading-space join of the texts. -/
theorem merge_text_foldl (l : List TranscriptionSegment) (acc : String) :
    l.foldl (fun acc seg => acc ++ " " ++ seg.text) acc
      = acc ++ joinLeadingSpace (l.map (fun seg => seg.text)) := by
  induction l generalizing acc with
  | nil => simp [joinLeadingSpace]
  | cons t ts ih =>
    simp only [List.foldl_cons, List.map_cons, joinLeadingSpace]
    rw [ih, String.append_assoc, String.append_assoc, String.append_assoc]

/-- C2: merging a non-empty, start-sorted list of segments yields the first
segment's `start_ms`, the last segment's `end_ms`, and the texts concatenated
in order with each join contributing one leading space. -/
theorem merge_nonempty_spec (segs : List TranscriptionSegment)
    (h : segs ≠ []) (hsorted : sortedByStart segs) :
    TranscriptionSegment.merge segs =
      .ok { start_ms := (segs.head h).start_ms,
            end_ms := (segs.getLast h).end_ms,
            text := joinLeadingSpace (segs.map (fun seg => seg.text)) } := by
  cases segs with
  | nil => exact absurd rfl h
  | cons s rest =>
    simp only [TranscriptionSegment.merge, List.head_cons]
    rw [merge_text_foldl]
    simp

/-- Witness for C2 at two concrete segments. -/
theorem merge_nonempty_spec_witness :
    TranscriptionSegment.merge
        [{ start_ms := 0, end_ms := 1, text := "a" },
         { start_ms := 2, end_ms := 3, text := "b" }]
      = .ok { start_ms := 0, end_ms := 3, text := " a b" } :=
  (merge_nonempty_spec
      [{ start_ms := 0, end_ms := 1, text := "a" },
       { start_ms := 2, end_ms := 3, text := "b" }]
      (by decide) (by decide)).trans (by decide)

/-- C6: merging an empty list of segments fails with the empty-input
`ValueError('Cannot merge zero segments')`; the result is an error, not any
segment. -/
theorem merge_empty_fails :
    TranscriptionSegment.merge [] =
      .error (.valueError "Cannot merge zero segments") := rfl

/-- C10: on a transcription with zero segments the threshold strategy does
not return an empty crop mapping — the unconditional merge of the (empty)
trailing group after the loop raises the empty-input merge error. -/
theorem threshold_strategy_empty_raises (threshold : Int) (audio_source : String) :
    threshold_strategy threshold audio_source [] =
      .error (.valueError "Cannot merge zero segments") := rfl

/-- C9: the `end_ms = -1` sentinel produced by `GreetingsEngine.transcribe`
is never resolved to the audio duration: the export arithmetic of
`_save_audio_crops` applies padding and clamping to the raw `-1`, so over a
10,000 ms audio the exported clip is `[0, 199)`, which stops 9,801 ms short
of the audio end instead of extending to it. -/
theorem sentinel_end_ms_not_resolved :
    GreetingsEngine.transcription
      = [{ start_ms := 0, end_ms := -1, text := "Hello world!" }]
    ∧ cropClipRange PAD_MS 10000 { start_ms := 0, end_ms := -1, text := "Hello world!" }
        = (0, 199)
    ∧ (199 : Int) < 10000 := by
  refine ⟨rfl, rfl, by decide⟩

/-- C3 (counterexample): on the end-to-end scenario the texts of the two
crops produced by the threshold strategy are `" a b"` and `" c"`, each with
the leading space contributed by `merge`, not `"a b"` as claimed. -/
theorem scenario_crop_texts_keep_leading_space :
    (threshold_strategy 500 "audio"
        [{ start_ms := 0, end_ms := 1000, text := "a" },
         { start_ms := 1200, end_ms := 2000, text := "b" },
         { start_ms := 5000, end_ms := 6000, text := "c" }]).map
      (fun crops => crops.map (fun p => p.2.text))
      = .ok [" a b", " c"]
    ∧ (" a b" : String) ≠ "a b" := by
  refine ⟨rfl, by decide⟩

/-- C3 (amended): the end-to-end scenario — three segments over a 10,000 ms
audio, threshold 500 ms — yields exactly two crops, crop 0 spanning 0–2000 ms
with text `" a b"` and crop 1 spanning 5000–6000 ms with text `" c"` (texts
carry the leading space from `merge` and are stripped to `"a b"` and `"c"` in
the metadata file); with `pad_ms = 200` the exported clip ranges are
`[0, 2200)` and `[4800, 6200)`. -/
theorem scenario_two_crops :
    threshold_strategy 500 "audio"
        [{ start_ms := 0, end_ms := 1000, text := "a" },
         { start_ms := 1200, end_ms := 2000, text := "b" },
         { start_ms := 5000, end_ms := 6000, text := "c" }]
      = .ok [(CROP_TEMPLATE "audio" 0, { start_ms := 0, end_ms := 2000, text := " a b" }),
             (CROP_TEMPLATE "audio" 1, { start_ms := 5000, end_ms := 6000, text := " c" })]
    ∧ save_audio_crops 200 10000 ".wav"
        [(CROP_TEMPLATE "audio" 0, { start_ms := 0, end_ms := 2000, text := " a b" }),
         (CROP_TEMPLATE "audio" 1, { start_ms := 5000, end_ms := 6000, text := " c" })]
      = [("audio_00000.wav", (0, 2200)), ("audio_00001.wav", (4800, 6200))]
    ∧ metadata_lines
        [(CROP_TEMPLATE "audio" 0, { start_ms := 0, end_ms := 2000, text := " a b" }),
         (CROP_TEMPLATE "audio" 1, { start_ms := 5000, end_ms := 6000, text := " c" })]
      = ["audio_00000|a b\n", "audio_00001|c\n"] := by
  refine ⟨rfl, by decide, by decide⟩

/-- Parsing the field dictionary of a segment reconstructs that segment. -/
theorem fromJsonObj_toJsonObj (s : TranscriptionSegment) :
    TranscriptionSegment.fromJsonObj s.toJsonObj = .ok s := by
  simp [TranscriptionSegment.fromJsonObj, TranscriptionSegment.toJsonObj,
    jsonLookup]

/-- Parsing a serialized segment list reconstructs the list. -/
theorem parseSegments_toJsonObj (l : List TranscriptionSegment) :
    TranscriptionSegment.parseSegments (l.map TranscriptionSegment.toJsonObj)
      = .ok l := by
  induction l with
  | nil => rfl
  | cons s rest ih =>
    simp [TranscriptionSegment.parseSegments, fromJsonObj_toJsonObj, ih]

/-- C5: deserializing the serialized JSON record of any `TranscriptionOutput`
— with zero, one, or many segments — reproduces the original, preserving all
four top-level fields and the order of every segment. -/
theorem from_json_to_json_roundtrip (t : TranscriptionOutput) :
    TranscriptionOutput.from_json t.to_json = .ok t := by
  simp [TranscriptionOutput.from_json, TranscriptionOutput.to_json,
    jsonLookup, parseSegments_toJsonObj]

/-- C7 (counterexample): a persisted record lacking the `audio_path` key
fails at the direct dictionary access `data['audio_path']` with a `KeyError`,
which is not the schema `ValueError` raised by the field-validation loop. -/
theorem from_json_missing_audio_path_keyerror :
    jsonLookup [("engine", Json.str "whisper"), ("language", Json.str "en"),
        ("transcription", Json.arr [])] "audio_path" = none
    ∧ TranscriptionOutput.from_json
        (.obj [("engine", Json.str "whisper"), ("language", Json.str "en"),
               ("transcription", Json.arr [])])
      = .error (.keyError "audio_path")
    ∧ PyError.keyError "audio_path"
        ≠ .valueError "Key audio_path is missing from the transcription output" := by
  refine ⟨rfl, rfl, by decide⟩

/-- C7 (amended): deserialization of a record missing a required top-level
key always fails, never silently defaulting — with the schema
`ValueError('Key ... is missing ...')` when `engine` or `language` is the
missing key, and with a `KeyError` from the direct dictionary access when
`audio_path` or `transcription` is missing. -/
theorem from_json_missing_key_fails (kvs : List (String × Json)) :
    (jsonLookup kvs "audio_path" = none →
      TranscriptionOutput.from_json (.obj kvs) = .error (.keyError "audio_path"))
    ∧ (∀ ap, jsonLookup kvs "audio_path" = some (.str ap) →
        jsonLookup kvs "transcription" = none →
        TranscriptionOutput.from_json (.obj kvs)
          = .error (.keyError "transcription"))
    ∧ (∀ ap xs segs, jsonLookup kvs "audio_path" = some (.str ap) →
        jsonLookup kvs "transcription" = some (.arr xs) →
        TranscriptionSegment.parseSegments xs = .ok segs →
        jsonLookup kvs "engine" = none →
        TranscriptionOutput.from_json (.obj kvs)
          = .error (.valueError "Key engine is missing from the transcription output"))
    ∧ (∀ ap xs segs je, jsonLookup kvs "audio_path" = some (.str ap) →
        jsonLookup kvs "transcription" = some (.arr xs) →
        TranscriptionSegment.parseSegments xs = .ok segs →
        jsonLookup kvs "engine" = some je →
        jsonLookup kvs "language" = none →
        TranscriptionOutput.from_json (.obj kvs)
          = .error (.valueError "Key language is missing from the transcription output"))
    ∧ ((jsonLookup kvs "audio_path" = none ∨ jsonLookup kvs "engine" = none
        ∨ jsonLookup kvs "language" = none
        ∨ jsonLookup kvs "transcription" = none) →
        ∀ t, TranscriptionOutput.from_json (.obj kvs) ≠ .ok t) := by
  refine ⟨?_, ?_, ?_, ?_, ?_⟩
  · intro h
    simp [TranscriptionOutput.from_json, h]
  · intro ap hap htr
    simp [TranscriptionOutput.from_json, hap, htr]
  · intro ap xs segs hap htr hsegs heng
    simp [TranscriptionOutput.from_json, hap, htr, hsegs, heng]
  · intro ap xs segs je hap htr hsegs heng hlang
    simp [TranscriptionOutput.from_json, hap, htr, hsegs, heng, hlang]
  · intro hmiss t hok
    simp only [TranscriptionOutput.from_json] at hok
    rcases hmiss with h | h | h | h <;> (repeat' split at hok) <;> simp_all

/-- Witness for the amended C7 at a concrete record missing only `engine`. -/
theorem from_json_missing_key_fails_witness :
    TranscriptionOutput.from_json
        (.obj [("audio_path", Json.str "a.wav"), ("language", Json.str "en"),
               ("transcription", Json.arr [])])
      = .error (.valueError "Key engine is missing from the transcription output") :=
  (from_json_missing_key_fails
      [("audio_path", Json.str "a.wav"), ("language", Json.str "en"),
       ("transcription", Json.arr [])]).2.2.1 "a.wav" [] [] rfl rfl rfl rfl

/-- Unlinking a listing of regular files only succeeds. -/
theorem unlink_all_ok_of_files (entries : List FsEntry)
    (h : entries.all FsEntry.isFile = true) : unlink_all entries = .ok () := by
  induction entries with
  | nil => rfl
  | cons e rest ih =>
    cases e with
    | file nm =>
      simp only [List.all_cons, Bool.and_eq_true] at h
      exact ih h.2
    | dir nm => simp [List.all_cons, FsEntry.isFile] at h

/-- Unlinking a listing that contains a subdirectory raises
`IsADirectoryError`. -/
theorem unlink_all_error_of_dir (entries : List FsEntry) (nm : String)
    (h : FsEntry.dir nm ∈ entries) :
    unlink_all entries = .error .isADirectoryError := by
  induction entries with
  | nil => cases h
  | cons e rest ih =>
    cases e with
    | file nm' =>
      cases h with
      | tail _ hmem => exact ih hmem
    | dir nm' => rfl

/-- C8 (counterexample): preparing an existing dataset directory that
contains a subdirectory under WRITE mode does not delete the regular files
and keep the subdirectory — the unlink loop hits the subdirectory entry and
raises `IsADirectoryError`. -/
theorem prepare_write_subdirectory_raises :
    prepare_dataset_dir .WRITE (some [.file "a.txt", .dir "sub"])
      = .error .isADirectoryError
    ∧ prepare_dataset_dir .WRITE (some [.file "a.txt", .dir "sub"])
        ≠ .ok [.dir "sub"] := by
  refine ⟨rfl, by decide⟩

/-- C8 (amended): preparing the dataset directory under WRITE mode on an
existing directory unlinks every entry directly inside it — deleting all of
them when they are all regular files, and failing with `IsADirectoryError`
when any entry is a subdirectory; under APPEND mode every pre-existing entry
is left untouched; when preparation succeeds the directory exists afterwards
(preparation of a non-existing directory creates it empty in either mode). -/
theorem prepare_dataset_dir_modes (entries : List FsEntry) (mode : Mode) :
    (entries.all FsEntry.isFile = true →
      prepare_dataset_dir .WRITE (some entries) = .ok [])
    ∧ prepare_dataset_dir .APPEND (some entries) = .ok entries
    ∧ prepare_dataset_dir mode none = .ok []
    ∧ (∀ nm, FsEntry.dir nm ∈ entries →
        prepare_dataset_dir .WRITE (some entries) = .error .isADirectoryError) := by
  refine ⟨?_, rfl, ?_, ?_⟩
  · intro h
    simp [prepare_dataset_dir, unlink_all_ok_of_files entries h]
  · cases mode <;> rfl
  · intro nm hmem
    simp [prepare_dataset_dir, unlink_all_error_of_dir entries nm hmem]

/-- Witness for the amended C8: WRITE on a directory holding two regular
files deletes both; a subdirectory entry makes it raise. -/
theorem prepare_dataset_dir_modes_witness :
    prepare_dataset_dir .WRITE (some [.file "old.wav", .file "metadata.txt"])
      = .ok []
    ∧ prepare_dataset_dir .WRITE (some [.file "metadata.txt", .dir "nested"])
      = .error .isADirectoryError :=
  ⟨(prepare_dataset_dir_modes [.file "old.wav", .file "metadata.txt"] .WRITE).1
      (by decide),
   (prepare_dataset_dir_modes [.file "metadata.txt", .dir "nested"] .WRITE).2.2.2
      "nested" (by decide)⟩

/-- C4: the exported clip range of a crop is
`(max 0 (start_ms - pad_ms), min (end_ms + pad_ms) audio_len)`: a padded end
past the audio duration is truncated to exactly the duration, a padded start
below zero is clamped to zero, and every millisecond of the range lies
within `[0, audio_len]`. -/
theorem export_clip_range_clamped (segment : TranscriptionSegment)
    (pad_ms audio_len : Int) (_hpad : 0 ≤ pad_ms) :
    (cropClipRange pad_ms audio_len segment).1
        = max 0 (segment.start_ms - pad_ms)
    ∧ (cropClipRange pad_ms audio_len segment).2
        = min (segment.end_ms + pad_ms) audio_len
    ∧ (audio_len < segment.end_ms + pad_ms →
        (cropClipRange pad_ms audio_len segment).2 = audio_len)
    ∧ (segment.start_ms - pad_ms < 0 →
        (cropClipRange pad_ms audio_len segment).1 = 0)
    ∧ (∀ x : Int, (cropClipRange pad_ms audio_len segment).1 ≤ x →
        x < (cropClipRange pad_ms audio_len segment).2 →
        0 ≤ x ∧ x ≤ audio_len) := by
  unfold cropClipRange
  refine ⟨rfl, rfl, ?_, ?_, ?_⟩ <;> (intros; omega)

/-- Witness for C4 at a concrete crop: segment 9000–9900 ms, pad 200 ms,
audio 10,000 ms — the padded end 10,100 is truncated to 10,000. -/
theorem export_clip_range_clamped_witness :
    (cropClipRange 200 10000 { start_ms := 9000, end_ms := 9900, text := "t" }).2
      = 10000 :=
  (export_clip_range_clamped { start_ms := 9000, end_ms := 9900, text := "t" }
    200 10000 (by decide)).2.2.1 (by decide)

/-- Binding a successful `Except` value applies the continuation. -/
theorem ok_bind {ε α β : Type} (a : α) (f : α → Except ε β) :
    (Except.ok a : Except ε α) >>= f = f a := rfl

/-- Appending one more group whose merge succeeds to a successful
`mergeGroups` run. -/
theorem mergeGroups_append_ok (closed : List (List TranscriptionSegment))
    (ms : List TranscriptionSegment) (h : mergeGroups closed = .ok ms)
    (g : List TranscriptionSegment) (m : TranscriptionSegment)
    (hm : TranscriptionSegment.merge g = .ok m) :
    mergeGroups (closed ++ [g]) = .ok (ms ++ [m]) := by
  induction closed generalizing ms with
  | nil =>
    injection h with h
    subst h
    simp [mergeGroups, hm]
  | cons c cs ih =>
    simp only [mergeGroups] at h
    cases hc : TranscriptionSegment.merge c with
    | error e => rw [hc] at h; cases h
    | ok mc =>
      rw [hc] at h
      cases hcs : mergeGroups cs with
      | error e => rw [hcs] at h; cases h
      | ok ms₂ =>
        rw [hcs] at h
        injection h with h
        subst h
        simp [mergeGroups, hc, ih ms₂ hcs]

/-- Appending a group whose merge fails makes `mergeGroups` fail with that
error. -/
theorem mergeGroups_append_err (closed : List (List TranscriptionSegment))
    (ms : List TranscriptionSegment) (h : mergeGroups closed = .ok ms)
    (g : List TranscriptionSegment) (e : PyError)
    (hm : TranscriptionSegment.merge g = .error e) :
    mergeGroups (closed ++ [g]) = .error e := by
  induction closed generalizing ms with
  | nil => simp [mergeGroups, hm]
  | cons c cs ih =>
    simp only [mergeGroups] at h
    cases hc : TranscriptionSegment.merge c with
    | error e' => rw [hc] at h; cases h
    | ok mc =>
      rw [hc] at h
      cases hcs : mergeGroups cs with
      | error e' => rw [hcs] at h; cases h
      | ok ms₂ =>
        simp [mergeGroups, hc, ih ms₂ hcs]

/-- Numbering crops distributes over appending one merged segment. -/
theorem numberCrops_append (src : String) (i : Nat)
    (ms : List TranscriptionSegment) (m : TranscriptionSegment) :
    numberCrops src i (ms ++ [m])
      = numberCrops src i ms ++ [(CROP_TEMPLATE src (i + ms.length), m)] := by
  induction ms generalizing i with
  | nil => simp [numberCrops]
  | cons x xs ih =>
    have hn : i + 1 + xs.length = i + (xs.length + 1) := by omega
    simp only [List.cons_append, numberCrops, List.length_cons, ← hn,
      List.append_eq]
    rw [ih]

/-- The loop of `_threshold_strategy` refines the spec's silence-threshold
walk: starting from a state whose crops are the numbered merges of the closed
groups, it ends in such a state again, with the same current group as the
spec walk. -/
theorem threshold_fold_spec (T : Int) (src : String)
    (segs : List TranscriptionSegment) :
    ∀ (closed : List (List TranscriptionSegment))
      (ms current : List TranscriptionSegment),
      mergeGroups closed = .ok ms →
      ∃ ms', mergeGroups (segs.foldl (specStep T) (closed, current)).1 = .ok ms'
        ∧ segs.foldlM (thresholdBody T src)
            (numberCrops src 0 ms, ms.length, current)
          = .ok (numberCrops src 0 ms', ms'.length,
                 (segs.foldl (specStep T) (closed, current)).2) := by
  induction segs with
  | nil =>
    intro closed ms current h
    exact ⟨ms, h, rfl⟩
  | cons seg rest ih =>
    intro closed ms current h
    rw [List.foldl_cons, List.foldlM_cons]
    cases current with
    | nil =>
      have hb : thresholdBody T src (numberCrops src 0 ms, ms.length, []) seg
          = .ok (numberCrops src 0 ms, ms.length, [seg]) := rfl
      have hs : specStep T (closed, []) seg = (closed, [seg]) := rfl
      rw [hb, ok_bind, hs]
      exact ih closed ms [seg] h
    | cons g gs =>
      by_cases hgap :
          seg.start_ms - ((g :: gs).getLast (List.cons_ne_nil g gs)).end_ms ≤ T
      · have hb : thresholdBody T src (numberCrops src 0 ms, ms.length, g :: gs) seg
            = .ok (numberCrops src 0 ms, ms.length, (g :: gs) ++ [seg]) := by
          simp only [thresholdBody, if_pos hgap]
        have hs : specStep T (closed, g :: gs) seg = (closed, (g :: gs) ++ [seg]) := by
          simp only [specStep, if_pos hgap]
        rw [hb, ok_bind, hs]
        exact ih closed ms ((g :: gs) ++ [seg]) h
      · obtain ⟨m, hm⟩ : ∃ m, TranscriptionSegment.merge (g :: gs) = .ok m :=
          ⟨_, rfl⟩
        have hb : thresholdBody T src (numberCrops src 0 ms, ms.length, g :: gs) seg
            = .ok (numberCrops src 0 ms ++ [(CROP_TEMPLATE src ms.length, m)],
                   ms.length + 1, [seg]) := by
          simp only [thresholdBody, if_neg hgap, hm]
        have hs : specStep T (closed, g :: gs) seg = (closed ++ [g :: gs], [seg]) := by
          simp only [specStep, if_neg hgap]
        have hnum : numberCrops src 0 ms ++ [(CROP_TEMPLATE src ms.length, m)]
            = numberCrops src 0 (ms ++ [m]) := by
          rw [numberCrops_append]
          simp
        have hlen : ms.length + 1 = (ms ++ [m]).length := by simp
        rw [hb, ok_bind, hs, hnum, hlen]
        exact ih (closed ++ [g :: gs]) (ms ++ [m]) [seg]
          (mergeGroups_append_ok closed ms h (g :: gs) m hm)

/-- `_threshold_strategy` computes exactly the spec's silence-threshold
grouping: merge each group of the walk and number them from zero. -/
theorem threshold_strategy_eq_spec (T : Int) (src : String)
    (segs : List TranscriptionSegment) :
    threshold_strategy T src segs
      = (mergeGroups (specSilenceGroups T segs)).map (numberCrops src 0) := by
  obtain ⟨ms', hmg, hfold⟩ := threshold_fold_spec T src segs [] [] [] rfl
  rcases hfd : segs.foldl (specStep T) ([], []) with ⟨closed, current⟩
  rw [hfd] at hmg hfold
  simp only [numberCrops, List.length_nil] at hfold
  have hgroups : specSilenceGroups T segs = closed ++ [current] := by
    simp only [specSilenceGroups, hfd]
  rw [hgroups]
  show (List.foldlM (thresholdBody T src) ([], 0, []) segs >>= fun st =>
      TranscriptionSegment.merge st.2.2 >>= fun merged_segment =>
        pure (st.1 ++ [(CROP_TEMPLATE src st.2.1, merged_segment)]))
    = (mergeGroups (closed ++ [current])).map (numberCrops src 0)
  rw [hfold, ok_bind]
  cases hm : TranscriptionSegment.merge current with
  | error e =>
    rw [mergeGroups_append_err closed ms' hmg current e hm]
    rfl
  | ok m =>
    rw [mergeGroups_append_ok closed ms' hmg current m hm]
    show Except.ok (numberCrops src 0 ms' ++ [(CROP_TEMPLATE src ms'.length, m)])
        = Except.map (numberCrops src 0) (.ok (ms' ++ [m]))
    simp only [Except.map]
    rw [numberCrops_append]
    simp

/-- C1: on segments sorted by non-decreasing `start_ms`, the threshold
strategy groups consecutive segments by gap — a segment whose `start_ms`
minus the previous group member's `end_ms` is at most the threshold joins
the current group and a strictly larger gap closes the group as one crop
and starts a new one, the trailing group always emitted; in particular two
segments with gap exactly the threshold form one crop, and with gap
threshold + 1 they form two crops. -/
theorem threshold_strategy_groups_by_gap (threshold : Int) (audio_source : String) :
    (∀ segs : List TranscriptionSegment, sortedByStart segs →
        threshold_strategy threshold audio_source segs
          = (mergeGroups (specSilenceGroups threshold segs)).map
              (numberCrops audio_source 0))
    ∧ (∀ a b : TranscriptionSegment, a.start_ms ≤ b.start_ms →
        b.start_ms - a.end_ms = threshold →
        (threshold_strategy threshold audio_source [a, b]).map List.length
          = .ok 1)
    ∧ (∀ a b : TranscriptionSegment, a.start_ms ≤ b.start_ms →
        b.start_ms - a.end_ms = threshold + 1 →
        (threshold_strategy threshold audio_source [a, b]).map List.length
          = .ok 2) := by
  refine ⟨fun segs _ => threshold_strategy_eq_spec threshold audio_source segs,
    ?_, ?_⟩
  · intro a b hab hgap
    have hcond : b.start_ms - a.end_ms ≤ threshold := by omega
    have e2 : specStep threshold ([], [a]) b = ([], [a, b]) := by
      simp only [specStep, List.getLast, if_pos hcond]
      rfl
    have hgr : specSilenceGroups threshold [a, b] = [[a, b]] := by
      simp only [specSilenceGroups, List.foldl_cons, List.foldl_nil]
      rw [show specStep threshold ([], []) a = ([], [a]) from rfl, e2]
      rfl
    rw [threshold_strategy_eq_spec, hgr]
    rfl
  · intro a b hab hgap
    have hcond : ¬ (b.start_ms - a.end_ms ≤ threshold) := by omega
    have e2 : specStep threshold ([], [a]) b = ([[a]], [b]) := by
      simp only [specStep, List.getLast, if_neg hcond]
      rfl
    have hgr : specSilenceGroups threshold [a, b] = [[a], [b]] := by
      simp only [specSilenceGroups, List.foldl_cons, List.foldl_nil]
      rw [show specStep threshold ([], []) a = ([], [a]) from rfl, e2]
      rfl
    rw [threshold_strategy_eq_spec, hgr]
    rfl

/-- Witness for C1 at concrete segments: gap exactly 500 keeps one crop and
gap 501 splits into two. -/
theorem threshold_strategy_groups_by_gap_witness :
    threshold_strategy 500 "audio"
        [{ start_ms := 0, end_ms := 1000, text := "a" },
         { start_ms := 1500, end_ms := 2000, text := "b" }]
      = (mergeGroups (specSilenceGroups 500
          [{ start_ms := 0, end_ms := 1000, text := "a" },
           { start_ms := 1500, end_ms := 2000, text := "b" }])).map
          (numberCrops "audio" 0)
    ∧ (threshold_strategy 500 "audio"
        [{ start_ms := 0, end_ms := 1000, text := "a" },
         { start_ms := 1500, end_ms := 2000, text := "b" }]).map List.length
      = .ok 1
    ∧ (threshold_strategy 500 "audio"
        [{ start_ms := 0, end_ms := 1000, text := "a" },
         { start_ms := 1501, end_ms := 2001, text := "b" }]).map List.length
      = .ok 2 :=
  ⟨(threshold_strategy_groups_by_gap 500 "audio").1 _ (by decide),
   (threshold_strategy_groups_by_gap 500 "audio").2.1
      { start_ms := 0, end_ms := 1000, text := "a" }
      { start_ms := 1500, end_ms := 2000, text := "b" } (by decide) (by decide),
   (threshold_strategy_groups_by_gap 500 "audio").2.2
      { start_ms := 0, end_ms := 1000, text := "a" }
      { start_ms := 1501, end_ms := 2001, text := "b" } (by decide) (by decide)⟩

end SyFM
